import Mathlib

/-!
Shallow embedding of the `spotify_rpa` package (cross-platform Spotify RPA
controller) and proofs about it.

Sources embedded here:
- `spotify_rpa/models.py`   — `TrackInfo` and its derived `web_url`.
- `spotify_rpa/base.py`     — the shared high-level automation procedures,
  modelled as trace-producing functions over an abstract event alphabet.
- `spotify_rpa/macos.py`    — the macOS backend: AppleScript-channel methods
  modelled as pure functions of the channel response, together with the list
  of channel calls they issue.
- `spotify_rpa/windows.py`  — the Windows backend: window-title parsing,
  key-code dispatch and the `NotImplementedError` stubs.
- `spotify_rpa/controller.py` — the `create_spotify_controller` factory.

Python exceptions are modelled with an explicit error type (`RPAError`); a
method that may raise returns the list of automation-channel calls it made
together with an optional error, or an `Except` value.  `time.sleep` calls
are not part of the observable channel-call alphabet (they touch no
controller state).  All definitions are executable, so concrete runs are
settled by `decide`/`rfl`.
-/

namespace SpotifyRPA

/-- Typed errors of the package (`spotify_rpa/exceptions.py` plus the Python
builtins `ValueError` and `NotImplementedError` that the backends raise). -/
inductive RPAError where
  | valueError (msg : String)
  | notImplementedError (msg : String)
  | appleScriptError (msg : String)
  | automationError (msg : String)
  | platformNotSupportedError (msg : String)
  deriving Repr, DecidableEq

/-- Model of `TrackInfo` from `spotify_rpa/models.py` (a plain dataclass;
duration is an arbitrary Python int, hence `Int`). -/
structure TrackInfo where
  name : String
  artist : String
  album : String
  duration_ms : Int
  spotify_url : String
  deriving Repr, DecidableEq

/-- Model of Python `str.split` on the one-character separator `":"`, over
the character list of the string: every occurrence of the separator starts a
new field, and the empty string yields the single empty field. -/
def splitColonChars : List Char → List (List Char)
  | [] => [[]]
  | c :: rest =>
      if c = Char.ofNat 58 then [] :: splitColonChars rest
      else
        match splitColonChars rest with
        | [] => [[c]]
        | g :: gs => (c :: g) :: gs

/-- Python `s.split(":")` as a function on `String`. -/
def pySplitColon (s : String) : List String :=
  (splitColonChars s.toList).map String.mk

/-- Model of `TrackInfo.web_url` (models.py lines 21-38): return `None` for
an empty source identifier, otherwise split on `":"`; exactly three fields
whose first is `"spotify"` yield the open.spotify.com URL, anything else
yields `None`. -/
def TrackInfo.web_url (t : TrackInfo) : Option String :=
  if t.spotify_url = "" then none
  else
    match pySplitColon t.spotify_url with
    | [scheme, item_type, item_id] =>
        if scheme = "spotify" then
          some ("https://open.spotify.com/" ++ item_type ++ "/" ++ item_id)
        else none
    | _ => none

/-- Concrete track used as a witness input (it mirrors the repository's own
test fixture `sample_track`). -/
def sampleTrack : TrackInfo :=
  { name := "Test Song", artist := "Test Artist", album := "Test Album",
    duration_ms := 180000, spotify_url := "spotify:track:abc123def456" }

/-- One observable call on the controller double.  The high-level procedures
of `SpotifyControllerBase` (base.py) interact with the controller only
through the primitive methods `launch`, `bring_to_front`, `_keystroke`,
`_type_text` and `_key_code` (plus `time.sleep`, which is not a controller
call); a run of a procedure is the list of these calls, in order. -/
inductive Event where
  | launch
  | bringToFront
  | keystroke (key : String) (modifiers : List String)
  | typeText (text : String)
  | keyCode (code : Nat)
  deriving Repr, DecidableEq

/-- Platform-specific abstract methods a concrete controller supplies to the
base class (the key-code accessors and `_get_command_modifier`). -/
structure Platform where
  returnKeyCode : Nat
  escapeKeyCode : Nat
  tabKeyCode : Nat
  downArrowKeyCode : Nat
  upArrowKeyCode : Nat
  spaceKeyCode : Nat
  commandModifier : String
  deriving Repr, DecidableEq

/-- Key codes of the macOS backend (macos.py lines 41-60). -/
def macPlatform : Platform :=
  { returnKeyCode := 36, escapeKeyCode := 53, tabKeyCode := 48,
    downArrowKeyCode := 125, upArrowKeyCode := 126, spaceKeyCode := 49,
    commandModifier := "command" }

/-- Key codes of the Windows backend (windows.py lines 175-194). -/
def winPlatform : Platform :=
  { returnKeyCode := 0x0D, escapeKeyCode := 0x1B, tabKeyCode := 0x09,
    downArrowKeyCode := 0x28, upArrowKeyCode := 0x26, spaceKeyCode := 0x20,
    commandModifier := "control" }

/-- Trace of `open_search` (base.py lines 236-240): bring to front, send the
command-modifier+"k" chord, sleep one UI delay. -/
def openSearchTrace (p : Platform) : List Event :=
  [Event.bringToFront, Event.keystroke "k" [p.commandModifier]]

/-- Trace of `search` (base.py lines 242-255): open search, sleep 0.3s, type
the query; `wait_for_results` only adds a sleep, which is not a controller
call. -/
def searchTrace (p : Platform) (query : String) (_waitForResults : Bool) :
    List Event :=
  openSearchTrace p ++ [Event.typeText query]

/-- Trace of `select_first_search_result` (base.py lines 257-263): sleep,
Down-Arrow, sleep, Return, sleep. -/
def selectFirstSearchResultTrace (p : Platform) : List Event :=
  [Event.keyCode p.downArrowKeyCode, Event.keyCode p.returnKeyCode]

/-- Trace of `play_playlist_by_name` (base.py lines 272-302): launch if not
running else bring to front; `search(name, wait_for_results=False)`; select
first result; if `play_first_song`, one final Return press. -/
def playPlaylistByNameTrace (p : Platform) (running : Bool) (name : String)
    (playFirstSong : Bool) : List Event :=
  (if running then [Event.bringToFront] else [Event.launch])
    ++ searchTrace p name false
    ++ selectFirstSearchResultTrace p
    ++ (if playFirstSong then [Event.keyCode p.returnKeyCode] else [])

/-- Record of one backend method invocation: the calls it issued on its
automation channel, in order, and the error it raised, if any.  The macOS
channel is `_run_applescript`, so a call is the AppleScript source string;
the Windows channel is the `RPA.Windows` library surface. -/
structure MethodRun (α : Type) where
  calls : List α
  error : Option RPAError
  deriving Repr, DecidableEq

/-- One call on the `RPA.Windows` automation channel (windows.py). -/
inductive WinCall where
  | windowsRun (cmd : String)
  | controlWindow (locator : String)
  | closeCurrentWindow
  | sendKeys (keys : String)
  | getElement (locator : String)
  deriving Repr, DecidableEq

/-- The double-quote character, for AppleScript source strings. -/
def doubleQuote : String := (Char.ofNat 34).toString

/-- The single-quote character (the factory error message and Python
`ValueError` messages quote offending values). -/
def singleQuote : String := (Char.ofNat 39).toString

/-- AppleScript issued by `MacOSSpotifyController.set_volume`
(macos.py line 119). -/
def macVolumeScript (level : Int) : String :=
  "tell application " ++ doubleQuote ++ "Spotify" ++ doubleQuote
    ++ " to set sound volume to " ++ toString level

/-- Model of `MacOSSpotifyController.set_volume` (macos.py lines 115-119):
raise `ValueError` before any channel call when the level is outside
`[0, 100]`, otherwise issue exactly the one volume AppleScript. -/
def macSetVolume (level : Int) : MethodRun String :=
  if 0 ≤ level ∧ level ≤ 100 then
    { calls := [macVolumeScript level], error := none }
  else
    { calls := [], error := some (.valueError "Volume must be between 0 and 100") }

/-- Error message of `WindowsSpotifyController.set_volume`
(windows.py lines 207-212). -/
def winSetVolumeMsg : String :=
  "Volume control is not available on Windows. Spotify on Windows does not expose this via an API."

/-- Model of `WindowsSpotifyController.set_volume` (windows.py lines
207-212): always raises `NotImplementedError`, for every level, with no
channel call. -/
def winSetVolume (_level : Int) : MethodRun WinCall :=
  { calls := [], error := some (.notImplementedError winSetVolumeMsg) }

/-- The concrete controller classes the factory can instantiate. -/
inductive ControllerKind where
  | macos
  | windows
  deriving Repr, DecidableEq

/-- Message of the `PlatformNotSupportedError` raised by
`create_spotify_controller` (controller.py lines 50-53). -/
def platformNotSupportedMessage (platform_name : String) : String :=
  "Platform " ++ singleQuote ++ platform_name ++ singleQuote
    ++ " is not supported. Supported platforms: macOS, Windows (stub)"

/-- Model of `create_spotify_controller` (controller.py lines 26-53):
dispatch on the platform tag; `"macos"` and `"windows"` construct the
matching controller, anything else raises `PlatformNotSupportedError` naming
the tag. -/
def create_spotify_controller (platform_name : String) :
    Except RPAError ControllerKind :=
  if platform_name = "macos" then .ok .macos
  else if platform_name = "windows" then .ok .windows
  else .error (.platformNotSupportedError (platformNotSupportedMessage platform_name))

/-- ASCII lower-casing of one character, as Python `str.lower` acts on the
ASCII range (all strings involved in player states are ASCII). -/
def lowerChar (c : Char) : Char :=
  if 65 ≤ c.toNat ∧ c.toNat ≤ 90 then Char.ofNat (c.toNat + 32) else c

/-- Python `s.lower()` on the ASCII fragment. -/
def pyLower (s : String) : String :=
  String.mk (s.toList.map lowerChar)

/-- Model of `MacOSSpotifyController.get_player_state` (macos.py lines
130-133): run the player-state AppleScript and return the lower-cased
channel response, whatever it is. -/
def macGetPlayerState (channelResponse : String) : String :=
  pyLower channelResponse

/-- Idle window titles of the Windows backend (windows.py line 114). -/
def idleTitles : List String := ["Spotify", "Spotify Premium", "Spotify Free"]

/-- Model of `WindowsSpotifyController.get_player_state` (windows.py lines
107-116), as a function of the window title — `none` when
`_get_window_title` raised.  A missing or empty title maps to `"stopped"`
(Python `if not title` is true both for `None` and for the empty string), an
idle-literal title to `"paused"`, anything else to `"playing"`. -/
def winGetPlayerState (title : Option String) : String :=
  match title with
  | none => "stopped"
  | some t =>
      if t = "" then "stopped"
      else if t ∈ idleTitles then "paused"
      else "playing"

/-- Outcome of the `control_window` lookup on the `RPA.Windows` channel:
either it located the window or it raised some exception (any exception,
transport failures included). -/
inductive LookupOutcome where
  | success (window : String)
  | failure (exc : String)
  deriving Repr, DecidableEq

/-- Model of `WindowsSpotifyController.is_running` (windows.py lines 51-57):
`try: control_window(...); return True except Exception: return False`.  It
is a total function of the lookup outcome into `Bool` — every exception is
caught, none propagates. -/
def winIsRunning : LookupOutcome → Bool
  | .success _ => true
  | .failure _ => false

/-- Model of `key_map.get(code, "")` in `WindowsSpotifyController._key_code`
(windows.py lines 151-159). -/
def winKeyMap (code : Nat) : String :=
  if code = 0x0D then "{ENTER}"
  else if code = 0x1B then "{ESC}"
  else if code = 0x09 then "{TAB}"
  else if code = 0x28 then "{DOWN}"
  else if code = 0x26 then "{UP}"
  else if code = 0x20 then "{SPACE}"
  else ""

/-- Model of `WindowsSpotifyController._key_code` (windows.py lines
149-163): look the code up in the key map; on a hit, bring the window to
front (one `control_window` channel call) and send the key; on a miss
(`key == ""`), fall through the `if key:` guard — no channel call and no
error. -/
def winKeyCode (code : Nat) : MethodRun WinCall :=
  let key := winKeyMap code
  if key = "" then { calls := [], error := none }
  else
    { calls := [WinCall.controlWindow "executable:Spotify.exe", WinCall.sendKeys key],
      error := none }

/-- Property of a Windows-backend method run: it raised
`NotImplementedError` without touching the automation channel. -/
def raisesNotSupported (r : MethodRun WinCall) : Prop :=
  r.calls = [] ∧ ∃ msg, r.error = some (RPAError.notImplementedError msg)

/-- Model of `WindowsSpotifyController.get_volume` (windows.py lines 200-205). -/
def winGetVolume : MethodRun WinCall :=
  { calls := [],
    error := some (.notImplementedError
      "Volume reading is not available on Windows. Spotify on Windows does not expose this via an API.") }

/-- Model of `WindowsSpotifyController.get_player_position` (windows.py
lines 214-219). -/
def winGetPlayerPosition : MethodRun WinCall :=
  { calls := [],
    error := some (.notImplementedError
      "Playback position is not available on Windows. Spotify on Windows does not expose this via an API.") }

/-- Model of `WindowsSpotifyController.set_player_position` (windows.py
lines 221-226); the position argument (a Python float) is never read. -/
def winSetPlayerPosition (_position : ℚ) : MethodRun WinCall :=
  { calls := [],
    error := some (.notImplementedError
      "Seeking is not available on Windows. Spotify on Windows does not expose this via an API.") }

/-- Model of `WindowsSpotifyController.play_track` (windows.py lines 228-233). -/
def winPlayTrack (_spotify_uri : String) : MethodRun WinCall :=
  { calls := [],
    error := some (.notImplementedError
      "Playing by URI is not available on Windows. Use play_playlist_by_name() with search instead.") }

/-- Model of `WindowsSpotifyController.is_shuffling` (windows.py lines 235-240). -/
def winIsShuffling : MethodRun WinCall :=
  { calls := [],
    error := some (.notImplementedError
      "Shuffle state is not available on Windows. Spotify on Windows does not expose this via an API.") }

/-- Model of `WindowsSpotifyController.is_repeating` (windows.py lines 242-247). -/
def winIsRepeating : MethodRun WinCall :=
  { calls := [],
    error := some (.notImplementedError
      "Repeat state is not available on Windows. Spotify on Windows does not expose this via an API.") }

/-- Model of `WindowsSpotifyController.set_shuffling` (windows.py lines 249-254). -/
def winSetShuffling (_enabled : Bool) : MethodRun WinCall :=
  { calls := [],
    error := some (.notImplementedError
      "Shuffle control is not available on Windows. Spotify on Windows does not expose this via an API.") }

/-- Model of `WindowsSpotifyController.set_repeating` (windows.py lines 256-261). -/
def winSetRepeating (_enabled : Bool) : MethodRun WinCall :=
  { calls := [],
    error := some (.notImplementedError
      "Repeat control is not available on Windows. Spotify on Windows does not expose this via an API.") }

/-- The bar character of the `"|||"` batch-record separator. -/
def barChar : Char := Char.ofNat 124

/-- Model of Python `str.split("|||")` over the character list, scanning
left to right with the field read so far accumulated in reverse: a leftmost
occurrence of three consecutive bars ends the current field and is
consumed. -/
def splitTripleBarAux (acc : List Char) : List Char → List (List Char)
  | [] => [acc.reverse]
  | c :: rest =>
      if c = barChar ∧ rest.take 2 = [barChar, barChar] then
        acc.reverse ::
          (match rest with
           | _ :: _ :: rest2 => splitTripleBarAux [] rest2
           | _ => [[]])
      else splitTripleBarAux (c :: acc) rest

/-- Python `s.split("|||")` as a function on `String`. -/
def pySplitTripleBar (s : String) : List String :=
  (splitTripleBarAux [] s.toList).map String.mk

/-- Decimal value of one ASCII digit. -/
def digitVal (c : Char) : Option Nat :=
  if 48 ≤ c.toNat ∧ c.toNat ≤ 57 then some (c.toNat - 48) else none

/-- Accumulation of a run of decimal digits. -/
def digitsToNatAux : List Char → Nat → Option Nat
  | [], acc => some acc
  | c :: cs, acc =>
      match digitVal c with
      | some d => digitsToNatAux cs (acc * 10 + d)
      | none => none

/-- A non-empty all-digit run, as a natural number. -/
def digitsToNat : List Char → Option Nat
  | [] => none
  | cs => digitsToNatAux cs 0

/-- Python whitespace characters stripped by `int(...)`. -/
def isPySpace (c : Char) : Bool :=
  c.toNat = 32 ∨ c.toNat = 9 ∨ c.toNat = 10 ∨ c.toNat = 13 ∨
    c.toNat = 11 ∨ c.toNat = 12

/-- Removal of leading and trailing whitespace. -/
def stripSpaces (cs : List Char) : List Char :=
  ((cs.dropWhile isPySpace).reverse.dropWhile isPySpace).reverse

/-- Model of Python `int(s)` on decimal strings: optional surrounding
whitespace, optional sign, then at least one digit; anything else raises
`ValueError` (modelled as `none`). -/
def pyInt (s : String) : Option Int :=
  match stripSpaces s.toList with
  | [] => none
  | c :: rest =>
      if c = Char.ofNat 45 then (digitsToNat rest).map (fun n => -(n : Int))
      else if c = Char.ofNat 43 then (digitsToNat rest).map (fun n => (n : Int))
      else (digitsToNat (c :: rest)).map (fun n => (n : Int))

/-- Model of `MacOSSpotifyController.get_current_track` (macos.py lines
148-178) as a function of the (already stripped) AppleScript channel
response: `"STOPPED"` short-circuits to no track; a field count other than
five yields no track; five fields build the `TrackInfo`, where
`int(parts[3])` raises `ValueError` on a non-numeric duration field. -/
def macGetCurrentTrack (result : String) : Except RPAError (Option TrackInfo) :=
  if result = "STOPPED" then .ok none
  else
    match pySplitTripleBar result with
    | [p0, p1, p2, p3, p4] =>
        match pyInt p3 with
        | some d =>
            .ok (some { name := p0, artist := p1, album := p2,
                        duration_ms := d, spotify_url := p4 })
        | none =>
            .error (.valueError
              ("invalid literal for int() with base 10: " ++ singleQuote ++ p3 ++ singleQuote))
    | _ => .ok none

/-- Character class of `.` in the title pattern: any character except
newline. -/
def dotChar (c : Char) : Bool :=
  c ≠ Char.ofNat 10

/-- Literal separator between the two groups of the title pattern. -/
def sepDash : List Char := " - ".toList

/-- Literal continuation that must follow group 2 of the title pattern. -/
def sepSpotify : List Char := " - Spotify".toList

/-- Lazy search for group 2 of `re.match(r"(.+?) - (.+?) - Spotify", t)`:
extend the group one dot-character at a time and succeed as soon as the
remaining input starts with the continuation. -/
def matchLazyGroup2 (acc : List Char) : List Char → Option (List Char)
  | [] => none
  | c :: rest =>
      if dotChar c then
        if sepSpotify.isPrefixOf rest then some (acc ++ [c])
        else matchLazyGroup2 (acc ++ [c]) rest
      else none

/-- Lazy search for group 1 of the title pattern: extend the group one
dot-character at a time; wherever the separator follows, try group 2 on the
input after the separator, and on its failure keep extending group 1 (the
backtracking of the lazy pattern, anchored at the start as `re.match`
is). -/
def matchLazyGroups (acc : List Char) : List Char → Option (List Char × List Char)
  | [] => none
  | c :: rest =>
      if dotChar c then
        if sepDash.isPrefixOf rest then
          match matchLazyGroup2 [] (rest.drop 3) with
          | some g2 => some (acc ++ [c], g2)
          | none => matchLazyGroups (acc ++ [c]) rest
        else matchLazyGroups (acc ++ [c]) rest
      else none

/-- Model of `re.match(r"(.+?) - (.+?) - Spotify", title)` (windows.py line
125), returning the two captured groups (artist, track name) on success. -/
def reMatchArtistTitle (title : String) : Option (String × String) :=
  (matchLazyGroups [] title.toList).map (fun p => (String.mk p.1, String.mk p.2))

/-- Model of `WindowsSpotifyController.get_current_track` (windows.py lines
118-134) as a function of the window title (`none` when the lookup raised):
missing, empty or idle-literal titles yield no track; otherwise the title is
matched against the lazy pattern, a match building a `TrackInfo` with empty
album, zero duration and empty source identifier, and a non-match yielding
no track. -/
def winGetCurrentTrack (title : Option String) : Option TrackInfo :=
  match title with
  | none => none
  | some t =>
      if t = "" ∨ t ∈ idleTitles then none
      else
        match reMatchArtistTitle t with
        | some (artist, trackName) =>
            some { name := trackName, artist := artist, album := "",
                   duration_ms := 0, spotify_url := "" }
        | none => none

/-!
## Theorems
-/

/-- Splitting the empty string yields one (empty) field, so the early
empty-string return in `web_url` coincides with the general
wrong-field-count case. -/
theorem pySplitColon_empty : pySplitColon "" = [""] := by decide

/-- C1: `web_url` is a total (hence side-effect-free) function of the source
identifier: whenever the identifier splits on `:` into exactly three fields
with first field `"spotify"`, the result is
`"https://open.spotify.com/" ++ type ++ "/" ++ id`; for every identifier
that does not split that way (wrong field count, wrong scheme, or the empty
string) the result is `none`. -/
theorem web_url_spec (t : TrackInfo) :
    (∀ ty id, pySplitColon t.spotify_url = ["spotify", ty, id] →
        t.web_url = some ("https://open.spotify.com/" ++ ty ++ "/" ++ id)) ∧
    ((¬ ∃ ty id, pySplitColon t.spotify_url = ["spotify", ty, id]) →
        t.web_url = none) := by
  constructor
  · intro ty id hsplit
    have hne : t.spotify_url ≠ "" := by
      intro h
      rw [h, pySplitColon_empty] at hsplit
      simp at hsplit
    simp only [TrackInfo.web_url, if_neg hne, hsplit]
    simp
  · intro hno
    unfold TrackInfo.web_url
    by_cases hemp : t.spotify_url = ""
    · simp [hemp]
    · rw [if_neg hemp]
      rcases hsp : pySplitColon t.spotify_url with _ | ⟨s, _ | ⟨ty, _ | ⟨id, _ | rest⟩⟩⟩
      · rfl
      · rfl
      · rfl
      · by_cases hs : s = "spotify"
        · exact absurd ⟨ty, id, by rw [hsp, hs]⟩ hno
        · simp [hs]
      · rfl

/-- Witness for C1: the hypotheses of `web_url_spec` hold at a concrete
track and give the concrete URL the repository's own tests expect. -/
theorem web_url_spec_witness :
    sampleTrack.web_url = some "https://open.spotify.com/track/abc123def456" :=
  (web_url_spec sampleTrack).1 "track" "abc123def456" (by decide)

/-- C2, counterexample: against a not-running controller,
`play_playlist_by_name("My Playlist")` with default arguments DOES call
`bring_to_front` — `search` opens the quick-search overlay through
`open_search`, whose first step is `bring_to_front` (base.py line 238).  The
claim that `bring_to_front` is never called anywhere in the sequence is
false. -/
theorem playPlaylistByName_calls_bringToFront :
    Event.bringToFront ∈ playPlaylistByNameTrace macPlatform false "My Playlist" true := by
  decide

/-- C2, amended: against a not-running controller, `play_playlist_by_name`
with default arguments produces exactly: `launch`; then the `search`
procedure with `wait_for_results = false` (whose opening step is
`bring_to_front` followed by the command-modifier+"k" chord, then typing the
query); then the select-first-result procedure (Down-Arrow, Return); then
one final confirm Return press.  In that sequence `bring_to_front` is called
exactly once, inside `open_search`; the top-level else-branch
`bring_to_front` of `play_playlist_by_name` is not taken. -/
theorem playPlaylistByName_not_running_trace (p : Platform) (name : String) :
    playPlaylistByNameTrace p false name true =
      [Event.launch, Event.bringToFront,
       Event.keystroke "k" [p.commandModifier], Event.typeText name,
       Event.keyCode p.downArrowKeyCode, Event.keyCode p.returnKeyCode,
       Event.keyCode p.returnKeyCode] ∧
    (playPlaylistByNameTrace p false name true).count Event.bringToFront = 1 := by
  constructor
  · rfl
  · rfl

/-- C3, counterexample: on the Windows backend the in-range level 50 does
NOT issue any command to the automation channel — `set_volume(50)` raises
`NotImplementedError` with zero channel calls, so the claim that every level
in `[0, 100]` issues the command to the channel is false. -/
theorem winSetVolume_50_no_channel_call :
    (winSetVolume 50).calls = [] ∧
      (winSetVolume 50).error = some (RPAError.notImplementedError winSetVolumeMsg) :=
  ⟨rfl, rfl⟩

/-- C3, amended: on the macOS backend, every integer level outside
`[0, 100]` raises a `ValueError` before any automation-channel call (zero
channel calls), and every level in `[0, 100]` issues exactly the volume
command to the channel and raises nothing.  On the Windows backend,
`set_volume` raises `NotImplementedError` with zero channel calls for every
level, in range or not. -/
theorem set_volume_spec (level : Int) :
    (¬ (0 ≤ level ∧ level ≤ 100) →
        macSetVolume level =
          { calls := [], error := some (.valueError "Volume must be between 0 and 100") }) ∧
    ((0 ≤ level ∧ level ≤ 100) →
        macSetVolume level = { calls := [macVolumeScript level], error := none }) ∧
    winSetVolume level = { calls := [], error := some (.notImplementedError winSetVolumeMsg) } := by
  refine ⟨fun h => ?_, fun h => ?_, rfl⟩
  · simp [macSetVolume, h]
  · simp [macSetVolume, h]

/-- Witness for C3 (amended): at level 150 the macOS backend raises the
validation error with no channel call; at level 50 it issues exactly the
volume command. -/
theorem set_volume_spec_witness :
    (¬ (0 ≤ (150 : Int) ∧ (150 : Int) ≤ 100) ∧
      macSetVolume 150 =
        { calls := [], error := some (.valueError "Volume must be between 0 and 100") }) ∧
    ((0 ≤ (50 : Int) ∧ (50 : Int) ≤ 100) ∧
      macSetVolume 50 = { calls := [macVolumeScript 50], error := none }) :=
  ⟨⟨by decide, (set_volume_spec 150).1 (by decide)⟩,
   ⟨by decide, (set_volume_spec 50).2.1 (by decide)⟩⟩

/-- C4: for every unrecognized platform tag, the factory raises a typed
`PlatformNotSupportedError` whose message contains the offending tag and the
words "not supported"; for each recognized tag it returns the matching
concrete controller. -/
theorem create_spotify_controller_spec (platform_name : String) :
    (platform_name ≠ "macos" → platform_name ≠ "windows" →
      create_spotify_controller platform_name =
        .error (.platformNotSupportedError (platformNotSupportedMessage platform_name)) ∧
      (∃ pre post, platformNotSupportedMessage platform_name = pre ++ platform_name ++ post) ∧
      (∃ pre post, platformNotSupportedMessage platform_name = pre ++ "not supported" ++ post)) ∧
    create_spotify_controller "macos" = .ok ControllerKind.macos ∧
    create_spotify_controller "windows" = .ok ControllerKind.windows := by
  refine ⟨fun h1 h2 => ⟨?_, ?_, ?_⟩, rfl, rfl⟩
  · simp [create_spotify_controller, h1, h2]
  · exact ⟨"Platform " ++ singleQuote,
      singleQuote ++ " is not supported. Supported platforms: macOS, Windows (stub)",
      by simp [platformNotSupportedMessage, String.append_assoc]⟩
  · refine ⟨"Platform " ++ singleQuote ++ platform_name ++ singleQuote ++ " is ",
      ". Supported platforms: macOS, Windows (stub)", ?_⟩
    have hlit : " is not supported. Supported platforms: macOS, Windows (stub)" =
        " is " ++ "not supported" ++ ". Supported platforms: macOS, Windows (stub)" := by decide
    simp [platformNotSupportedMessage, hlit, String.append_assoc]

/-- Witness for C4: the tag `"linux"` (the repository's own test case) is
rejected with a message containing the tag and "not supported". -/
theorem create_spotify_controller_spec_witness :
    ("linux" : String) ≠ "macos" ∧ ("linux" : String) ≠ "windows" ∧
    (create_spotify_controller "linux" =
        .error (.platformNotSupportedError (platformNotSupportedMessage "linux")) ∧
      (∃ pre post, platformNotSupportedMessage "linux" = pre ++ "linux" ++ post) ∧
      (∃ pre post, platformNotSupportedMessage "linux" = pre ++ "not supported" ++ post)) :=
  ⟨by decide, by decide,
    (create_spotify_controller_spec "linux").1 (by decide) (by decide)⟩

/-- C5, counterexample: the macOS backend returns the lower-cased channel
response unchecked — if the AppleScript channel answered `"BANANA"`,
`get_player_state` would return `"banana"`, which is none of the three
literals.  The claim quantified over every possible channel response is
false for Backend A. -/
theorem macGetPlayerState_arbitrary :
    macGetPlayerState "BANANA" ≠ "playing" ∧
    macGetPlayerState "BANANA" ≠ "paused" ∧
    macGetPlayerState "BANANA" ≠ "stopped" := by
  refine ⟨?_, ?_, ?_⟩ <;> decide

/-- C5, amended: the Windows backend returns one of the three literals
`"playing"`, `"paused"`, `"stopped"` for every behaviour of the window
lookup; the macOS backend returns the lower-cased channel response verbatim,
so it returns one of the three literals exactly when the channel response
lower-cases to one of them (as the AppleScript player-state property does,
e.g. `"Playing"`), and any other response would be passed through. -/
theorem get_player_state_spec :
    (∀ title, winGetPlayerState title = "playing" ∨
        winGetPlayerState title = "paused" ∨ winGetPlayerState title = "stopped") ∧
    (∀ s, macGetPlayerState s = pyLower s) ∧
    macGetPlayerState "Playing" = "playing" := by
  refine ⟨?_, fun s => rfl, by decide⟩
  intro title
  rcases title with _ | t
  · right; right; rfl
  · by_cases h1 : t = ""
    · right; right; simp [winGetPlayerState, h1]
    · by_cases h2 : t ∈ idleTitles
      · right; left; simp [winGetPlayerState, h1, h2]
      · left; simp [winGetPlayerState, h1, h2]

/-- C6, counterexample: `_key_code` with the unmapped code `0x41` (the
letter A) silently does nothing — no channel call and no error, instead of
the claimed dedicated not-supported error.  The claim that every keyboard
primitive invocation outside the supported set fails with a not-supported
error is false. -/
theorem winKeyCode_unmapped_silent :
    winKeyCode 0x41 = { calls := [], error := none } := rfl

/-- C6, amended: on the Windows backend every unsupported contract
operation — volume get/set, position get/set, direct-URI playback,
shuffle/repeat get/set — fails immediately with a dedicated
`NotImplementedError` and zero automation-channel calls; the keyboard
primitive `_key_code`, however, silently does nothing (no channel call, no
error) whenever the requested code is not in the platform's key map. -/
theorem windows_unsupported_spec :
    raisesNotSupported winGetVolume ∧
    (∀ level : Int, raisesNotSupported (winSetVolume level)) ∧
    raisesNotSupported winGetPlayerPosition ∧
    (∀ position : ℚ, raisesNotSupported (winSetPlayerPosition position)) ∧
    (∀ uri : String, raisesNotSupported (winPlayTrack uri)) ∧
    raisesNotSupported winIsShuffling ∧
    raisesNotSupported winIsRepeating ∧
    (∀ enabled : Bool, raisesNotSupported (winSetShuffling enabled)) ∧
    (∀ enabled : Bool, raisesNotSupported (winSetRepeating enabled)) ∧
    (∀ code : Nat, winKeyMap code = "" →
      winKeyCode code = { calls := [], error := none }) := by
  refine ⟨⟨rfl, _, rfl⟩, fun _ => ⟨rfl, _, rfl⟩, ⟨rfl, _, rfl⟩, fun _ => ⟨rfl, _, rfl⟩,
    fun _ => ⟨rfl, _, rfl⟩, ⟨rfl, _, rfl⟩, ⟨rfl, _, rfl⟩, fun _ => ⟨rfl, _, rfl⟩,
    fun _ => ⟨rfl, _, rfl⟩, fun code h => ?_⟩
  simp [winKeyCode, h]

/-- Witness for C6 (amended): the code `0x41` is unmapped and `_key_code`
on it is the silent no-op. -/
theorem windows_unsupported_spec_witness :
    winKeyMap 0x41 = "" ∧ winKeyCode 0x41 = { calls := [], error := none } :=
  ⟨by decide, windows_unsupported_spec.2.2.2.2.2.2.2.2.2 0x41 (by decide)⟩

/-- C7, counterexample: a five-field record whose duration field is not
numeric makes `get_current_track` raise `ValueError` (from `int("x")`)
instead of returning `None` — the claim that it never raises in the
cannot-be-parsed case is false for fields of the wrong form. -/
theorem macGetCurrentTrack_raises_on_bad_duration :
    macGetCurrentTrack "a|||b|||c|||x|||spotify:track:z" =
      .error (.valueError
        ("invalid literal for int() with base 10: " ++ singleQuote ++ "x" ++ singleQuote)) := by
  rfl

/-- C7, amended: `get_current_track` returns no track, without raising, when
the batch query yields the `"STOPPED"` sentinel or when the record does not
split on `"|||"` into exactly five fields; when it does split into five
fields, a numeric duration field yields the `TrackInfo` built from the five
fields, while a non-numeric duration field raises a `ValueError` (the one
malformed-fields case that raises rather than returning `None`). -/
theorem macGetCurrentTrack_spec :
    macGetCurrentTrack "STOPPED" = .ok none ∧
    (∀ r, r ≠ "STOPPED" → (pySplitTripleBar r).length ≠ 5 →
        macGetCurrentTrack r = .ok none) ∧
    (∀ r p0 p1 p2 p3 p4, r ≠ "STOPPED" →
        pySplitTripleBar r = [p0, p1, p2, p3, p4] →
        (∀ d, pyInt p3 = some d →
            macGetCurrentTrack r =
              .ok (some { name := p0, artist := p1, album := p2,
                          duration_ms := d, spotify_url := p4 })) ∧
        (pyInt p3 = none → ∃ msg, macGetCurrentTrack r = .error (.valueError msg))) := by
  refine ⟨rfl, fun r hne hlen => ?_, fun r p0 p1 p2 p3 p4 hne hsp => ⟨fun d hd => ?_, fun hd => ?_⟩⟩
  · unfold macGetCurrentTrack
    rw [if_neg hne]
    rcases h : pySplitTripleBar r with
        _ | ⟨a, _ | ⟨b, _ | ⟨c, _ | ⟨d, _ | ⟨e, _ | ⟨f, rest⟩⟩⟩⟩⟩⟩
    · rfl
    · rfl
    · rfl
    · rfl
    · rfl
    · rw [h] at hlen; simp at hlen
    · rfl
  · unfold macGetCurrentTrack
    rw [if_neg hne, hsp]
    simp only [hd]
  · unfold macGetCurrentTrack
    rw [if_neg hne, hsp]
    simp only [hd]
    exact ⟨_, rfl⟩

/-- Witness for C7 (amended): a well-formed five-field record parses to the
expected `TrackInfo`, and a one-field record yields no track. -/
theorem macGetCurrentTrack_spec_witness :
    macGetCurrentTrack "Song|||Artist|||Album|||215000|||spotify:track:abc" =
      .ok (some { name := "Song", artist := "Artist", album := "Album",
                  duration_ms := 215000, spotify_url := "spotify:track:abc" }) ∧
    macGetCurrentTrack "garbage" = .ok none :=
  ⟨(macGetCurrentTrack_spec.2.2 "Song|||Artist|||Album|||215000|||spotify:track:abc"
      "Song" "Artist" "Album" "215000" "spotify:track:abc"
      (by decide) (by decide)).1 215000 (by decide),
   macGetCurrentTrack_spec.2.1 "garbage" (by decide) (by decide)⟩

/-- C8: Backend B's window-title parser maps the title
`"Daft Punk - One More Time - Spotify"` to track name `"One More Time"`,
artist `"Daft Punk"`, empty album, zero duration, empty source identifier;
the title exactly `"Spotify"` gives player state `"paused"` and no track. -/
theorem winTitleParser_examples :
    winGetCurrentTrack (some "Daft Punk - One More Time - Spotify") =
      some { name := "One More Time", artist := "Daft Punk", album := "",
             duration_ms := 0, spotify_url := "" } ∧
    winGetPlayerState (some "Spotify") = "paused" ∧
    winGetCurrentTrack (some "Spotify") = none := by
  refine ⟨by decide, by decide, by decide⟩

/-- C9: when the window title cannot be obtained at all (the lookup raised,
or returned an empty name), `get_player_state` on the Windows backend
returns `"stopped"` — distinct from the `"paused"` produced by an
idle-literal title — and `get_current_track` returns no track. -/
theorem winNoTitle_stopped :
    winGetPlayerState none = "stopped" ∧
    winGetPlayerState (some "") = "stopped" ∧
    winGetCurrentTrack none = none ∧
    winGetCurrentTrack (some "") = none ∧
    winGetPlayerState (some "Spotify") = "paused" ∧
    ("stopped" : String) ≠ "paused" := by
  refine ⟨rfl, by decide, rfl, by decide, by decide, by decide⟩

/-- C10: `is_running` on the Windows backend is total over all behaviours of
the window-lookup channel: it returns `true` on every successful lookup and
`false` on every raising lookup (whatever the exception), and — being a
total `Bool`-valued function of the outcome — never propagates an exception
to the caller. -/
theorem winIsRunning_total :
    (∀ w, winIsRunning (LookupOutcome.success w) = true) ∧
    (∀ e, winIsRunning (LookupOutcome.failure e) = false) :=
  ⟨fun _ => rfl, fun _ => rfl⟩

end SpotifyRPA
